import Mathlib

/-!
Shallow embedding of the waste-classification lambda
(src/cloud/libs/functions/zero-shot-image-classification/claude_image_classification.py).

Modelling conventions, used consistently below:
* Python strings are Lean `String`/`List Char`; the Unicode-aware Python string
  operations (strip, lower, float) are modelled on their ASCII fragment, which
  is the fragment all the contractual marker tags, key names and numeric fields
  of this program live in.
* Decimal values are modelled exactly as rationals.  Every numeric comparison
  in this development is between values produced from identical decimal
  literals, on which IEEE-754 rounding acts identically on both sides, so the
  rounding step of CPython float is not modelled.
* Python exceptions are `Except String`; a `try/except` is a `match` on the
  embedded body.  A Python dict built by repeated assignment is an association
  list read with last-binding-wins lookup.
-/

/-- Characters removed by Python str.strip with no argument (ASCII fragment). -/
def isPySpace (c : Char) : Bool :=
  c = ' ' || c = '\t' || c = '\n' || c = '\r' || c = '\x0b' || c = '\x0c'

/-- Python str.strip on a character list: drop whitespace from both ends. -/
def stripL (l : List Char) : List Char :=
  ((l.dropWhile isPySpace).reverse.dropWhile isPySpace).reverse

/-- Python str.strip on a string. -/
def pyStrip (s : String) : String := ⟨stripL s.data⟩

/-- ASCII lowercasing of one character (the ASCII fragment of Python str.lower). -/
def lowerChar (c : Char) : Char :=
  if c.isUpper then Char.ofNat (c.toNat + 32) else c

/-- Python str.lower on a string (ASCII fragment). -/
def pyLower (s : String) : String := ⟨s.data.map lowerChar⟩

/-- Splits a character list at the first occurrence of the literal pattern
`pat`: the text strictly before the occurrence, and the text strictly after
it.  This is the semantics of a leftmost regex match of a literal pattern. -/
def splitAtSub (pat : List Char) : List Char → Option (List Char × List Char)
  | [] => if pat = [] then some ([], []) else none
  | c :: rest =>
    if pat.isPrefixOf (c :: rest) then some ([], (c :: rest).drop pat.length)
    else
      match splitAtSub pat rest with
      | none => none
      | some (pre, post) => some (c :: pre, post)

/-- Leftmost non-greedy extraction of the text between two markers: the
semantics of re.search of openTag(.*?)closeTag with DOTALL, namely the first
occurrence of the open tag followed by the first occurrence of the close tag
after it. -/
def extractBlock (openTag closeTag : String) (s : String) : Option String :=
  match splitAtSub openTag.data s.data with
  | none => none
  | some (_, rest) =>
    match splitAtSub closeTag.data rest with
    | none => none
    | some (inner, _) => some ⟨inner⟩

/-- Python str.split with a single-character separator (keeps empty pieces). -/
def splitOnChar (sep : Char) : List Char → List (List Char)
  | [] => [[]]
  | c :: rest =>
    match splitOnChar sep rest with
    | [] => [[]]
    | l :: ls => if c = sep then [] :: l :: ls else (c :: l) :: ls

/-- Python line.split(sep, 1) at the first colon: the part before the first
colon and the part after it, or none when the line has no colon. -/
def splitFirstColon : List Char → Option (List Char × List Char)
  | [] => none
  | c :: rest =>
    if c = ':' then some ([], rest)
    else
      match splitFirstColon rest with
      | none => none
      | some (k, v) => some (c :: k, v)

/-- Key/value pairs of a list of lines, one pair per line containing a colon,
key and value stripped, in line order.  Together with `dictGet` (last binding
of a key wins) this models the Python dict built by the assignments
response_dict[key.strip()] = value.strip() in source line order. -/
def buildPairs : List (List Char) → List (String × String)
  | [] => []
  | line :: rest =>
    match splitFirstColon line with
    | none => buildPairs rest
    | some (k, v) => (⟨stripL k⟩, ⟨stripL v⟩) :: buildPairs rest

/-- Lookup in a pair list with Python dict semantics: the LAST binding of a
key wins, because a later assignment overwrites an earlier one. -/
def dictGet (p : List (String × String)) (k : String) : Option String :=
  match p with
  | [] => none
  | (k1, v) :: rest =>
    match dictGet rest k with
    | some v2 => some v2
    | none => if k1 = k then some v else none

/-- Result of Python float(str).  Finite values are exact rationals (see the
header note on decimal literals); the infinities and nan are the non-finite
spellings float(str) also accepts. -/
inductive PyFloat
  | finite (q : ℚ)
  | pinf
  | ninf
  | nan
deriving DecidableEq, Repr

/-- Continuation of a digit run that has already seen a digit: accepts further
digits and single underscores sitting between two digits (CPython's
underscore rule for numeric strings). -/
def digitRunAux : List Char → (List Char × List Char)
  | [] => ([], [])
  | c :: rest =>
    if c.isDigit then
      let p := digitRunAux rest
      (c :: p.1, p.2)
    else if c = '_' then
      match rest with
      | [] => ([], [c])
      | d :: rest2 =>
        if d.isDigit then
          let p := digitRunAux rest2
          (d :: p.1, p.2)
        else ([], c :: d :: rest2)
    else ([], c :: rest)

/-- Maximal run of decimal digits with embedded underscores; the run is empty
when the input does not start with a digit.  Returns the digits with the
underscores removed, and the unconsumed input. -/
def digitRun (l : List Char) : (List Char × List Char) :=
  match l with
  | [] => ([], [])
  | c :: rest =>
    if c.isDigit then
      let p := digitRunAux rest
      (c :: p.1, p.2)
    else ([], l)

/-- Numeric value of a list of decimal digits. -/
def digitsToNat (ds : List Char) : ℕ :=
  ds.foldl (fun n c => 10 * n + (c.toNat - 48)) 0

/-- Mantissa of a Python float string: digits optionally followed by a point
and more digits, or a point followed by digits.  Returns the value of the
integer part, the value of the fraction part, the number of fraction digits,
and the unconsumed input. -/
def parseMantissa (l : List Char) : Option ((ℕ × ℕ × ℕ) × List Char) :=
  let ip := digitRun l
  if ip.1.isEmpty then
    match ip.2 with
    | '.' :: r2 =>
      let fp := digitRun r2
      if fp.1.isEmpty then none
      else some ((0, digitsToNat fp.1, fp.1.length), fp.2)
    | _ => none
  else
    match ip.2 with
    | '.' :: r2 =>
      let fp := digitRun r2
      some ((digitsToNat ip.1, digitsToNat fp.1, fp.1.length), fp.2)
    | _ => some ((digitsToNat ip.1, 0, 0), ip.2)

/-- Optional exponent of a Python float string.  Yields exponent 0 consuming
nothing when no marker is present; fails when a marker has no digits. -/
def parseExp (l : List Char) : Option (Int × List Char) :=
  match l with
  | [] => some (0, [])
  | c :: rest =>
    if c = 'e' || c = 'E' then
      let sr : (Int × List Char) :=
        match rest with
        | '+' :: r => ((1 : Int), r)
        | '-' :: r => ((-1 : Int), r)
        | _ => ((1 : Int), rest)
      let ds := digitRun sr.2
      if ds.1.isEmpty then none else some (sr.1 * (digitsToNat ds.1 : Int), ds.2)
    else some (0, c :: rest)

/-- Python float(str) on the ASCII fragment: strip whitespace, read an
optional sign, then inf / infinity / nan case-insensitively, or a decimal
literal with optional fraction and exponent under CPython's underscore rule.
Any unconsumed character makes the conversion fail (ValueError, i.e. none). -/
def pyFloat (s : String) : Option PyFloat :=
  let l := stripL s.data
  let sl : (Bool × List Char) :=
    match l with
    | '+' :: r => (false, r)
    | '-' :: r => (true, r)
    | _ => (false, l)
  let low := sl.2.map lowerChar
  if low = "inf".data || low = "infinity".data then
    some (if sl.1 then PyFloat.ninf else PyFloat.pinf)
  else if low = "nan".data then some PyFloat.nan
  else
    match parseMantissa sl.2 with
    | none => none
    | some (m, r1) =>
      match parseExp r1 with
      | none => none
      | some (e, r2) =>
        if r2.isEmpty then
          let num0 : Int := (m.1 * 10 ^ m.2.2 + m.2.1 : ℕ)
          let num : Int := if sl.1 then -num0 else num0
          let q : ℚ :=
            if 0 ≤ e then mkRat (num * (10 : Int) ^ e.toNat) (10 ^ m.2.2)
            else mkRat num (10 ^ m.2.2 * 10 ^ (-e).toNat)
          some (PyFloat.finite q)
        else none

/-- Dictionary with Name and Score built by parse_claude_response, one for the
waste category and one for the item label. -/
structure ClassificationResult where
  Name : String
  Score : PyFloat
deriving DecidableEq, Repr

/-- Default dictionary returned by parse_claude_response when parsing fails. -/
def default_dict : ClassificationResult := ⟨"unknown", PyFloat.finite 0⟩

/-- Keys the final_output block must provide. -/
def requiredKeys : List String :=
  ["Category", "Category_confidence", "Item", "Item_confidence"]

/-- Key/value mapping read from the final_output block: the block is stripped,
split into lines, and each line containing a colon contributes one entry. -/
def respDict (finalOutput : String) : List (String × String) :=
  buildPairs (splitOnChar '\n' (pyStrip finalOutput).data)

/-- Body of the try block of parse_claude_response: each ValueError raised in
the source (missing final_output section, missing required field, float
conversion failure) becomes an error value here. -/
def parseAttempt (response : String) :
    Except String (ClassificationResult × ClassificationResult × String) :=
  let analysis_text :=
    match extractBlock "<waste_analysis>" "</waste_analysis>" response with
    | some a => pyStrip a
    | none => ""
  match extractBlock "<final_output>" "</final_output>" response with
  | none => Except.error "Missing final_output section"
  | some finalOutput =>
    let d := respDict finalOutput
    match dictGet d "Category", dictGet d "Category_confidence",
          dictGet d "Item", dictGet d "Item_confidence" with
    | some cat, some catConf, some item, some itemConf =>
      match pyFloat catConf with
      | none => Except.error "could not convert string to float"
      | some catScore =>
        match pyFloat itemConf with
        | none => Except.error "could not convert string to float"
        | some itemScore =>
          Except.ok (⟨pyLower cat, catScore⟩, ⟨pyLower item, itemScore⟩, analysis_text)
    | _, _, _, _ => Except.error "Missing required fields in output"

/-- Model of parse_claude_response: the try body wrapped in the catch-all
except clause that returns the default dictionaries and an empty analysis
text on any failure. -/
def parse_claude_response (response : String) :
    ClassificationResult × ClassificationResult × String :=
  match parseAttempt response with
  | Except.ok o => o
  | Except.error _ => (default_dict, default_dict, "")

/-- Happy-path raw model reply used by the specification. -/
def happyText : String :=
  "<waste_analysis>abc</waste_analysis><final_output>\nCategory: Recycle\nCategory_confidence: 0.91\nItem: Plastic Bottle\nItem_confidence: 0.88\n</final_output>"

/-- JSON-like values: the shape of the inbound storage-change event and of
every value stored into it by the handler. -/
inductive JVal where
  | null
  | bool (b : Bool)
  | num (x : PyFloat)
  | str (s : String)
  | arr (elems : List JVal)
  | obj (fields : List (String × JVal))

/-- First binding of a key in an object's field list.  Field lists built from
JSON have unique keys, so this is plain dict lookup. -/
def lookupFirst : List (String × JVal) → String → Option JVal
  | [], _ => none
  | (k1, v) :: rest, k => if k1 = k then some v else lookupFirst rest k

/-- Python dict assignment d[k] = x on a field list: overwrite the binding in
place when the key exists, append it otherwise. -/
def setKey : List (String × JVal) → String → JVal → List (String × JVal)
  | [], k, x => [(k, x)]
  | (k1, v1) :: rest, k, x =>
    if k1 = k then (k, x) :: rest else (k1, v1) :: setKey rest k x

/-- Python subscript read v[k]: defined on mappings, none otherwise
(a KeyError or TypeError in the source). -/
def jGet (v : JVal) (k : String) : Option JVal :=
  match v with
  | JVal.obj fields => lookupFirst fields k
  | _ => none

/-- Python subscript assignment v[k] = x: defined on mappings, none
otherwise (a TypeError in the source). -/
def jSet (v : JVal) (k : String) (x : JVal) : Option JVal :=
  match v with
  | JVal.obj fields => some (JVal.obj (setKey fields k x))
  | _ => none

/-- Lowercase hexadecimal digit, as printed by json.dumps escapes. -/
def hexDigit (n : ℕ) : Char :=
  if n < 10 then Char.ofNat (48 + n) else Char.ofNat (87 + n)

/-- Four lowercase hexadecimal digits of a code point below 0x10000. -/
def hex4 (n : ℕ) : String :=
  ⟨[hexDigit (n / 4096 % 16), hexDigit (n / 256 % 16), hexDigit (n / 16 % 16),
    hexDigit (n % 16)]⟩

/-- Escaping of one character inside a json.dumps string literal (ASCII
fragment: the \uXXXX escaping of non-ASCII characters under ensure_ascii is
outside the modelled fragment, like the rest of this embedding). -/
def jsonEscapeChar (c : Char) : String :=
  if c = '"' then "\\\""
  else if c = '\\' then "\\\\"
  else if c = '\n' then "\\n"
  else if c = '\t' then "\\t"
  else if c = '\r' then "\\r"
  else if c = '\x08' then "\\b"
  else if c = '\x0c' then "\\f"
  else if c.toNat < 32 then "\\u" ++ hex4 c.toNat
  else ⟨[c]⟩

/-- Quoted JSON string literal for s, as json.dumps prints it. -/
def jsonQuote (s : String) : String :=
  "\"" ++ String.join (s.data.map jsonEscapeChar) ++ "\""

/-- Serialized device-shadow payload: json.dumps (with its default
separators) of the nested dict carrying the classification under
state.desired, built by updateShadowTopic. -/
def shadowPayload (result : String) : String :=
  "\x7b\"state\": \x7b\"desired\": \x7b\"classification\": " ++ jsonQuote result ++
    "\x7d\x7d\x7d"

/-- Fixed IoT topic updateShadowTopic publishes to. -/
def shadowTopic : String := "$aws/things/DemoWasteBin/shadow/update"

/-- One invocation of the publish boundary, as recorded by the model. -/
structure PublishCall where
  topic : String
  qos : ℕ
  payload : String
deriving DecidableEq, Repr

/-- Inference configuration passed to the converse call. -/
structure InferenceConfig where
  temperature : ℚ
  maxTokens : ℕ
  topP : ℚ

/-- Model id of the classifier. -/
def MODEL_ID : String := "anthropic.claude-3-sonnet-20240229-v1:0"

/-- Inference configuration of get_claude_response. -/
def inference_config : InferenceConfig := ⟨0, 1000, 1⟩

/-- System prompt of get_claude_response. -/
def SYSTEM_PROMPT : String :=
  "You are a waste classification expert. Always provide your response in the exact format requested, with categories and confidence scores."

/-- Instruction prompt of invoke_claude_classifier (the fixed template sent
together with the image). -/
def PROMPT : String :=
  "\nYou are an advanced image analysis system specialized in waste categorization. Your task is to analyze images of waste items and provide accurate classification and identification information. This information is crucial for efficient waste management and recycling processes.\n\nYour objective is to provide two key pieces of information about the waste item shown in the image:\n\n1. The waste category (choose exactly one: organic, landfill, or recycle)\n2. A brief label (1-3 words) identifying the main item shown\n\nBefore providing your final output, wrap your analysis inside <waste_analysis> tags. In your analysis, follow these steps:\n\n1. Identify the main item in the image and describe its key features.\n2. List the materials that compose the item (e.g., plastic, metal, food waste).\n3. Consider the following for each potential category:\n   a. Organic:\n      - Pros: List any organic or biodegradable components.\n      - Cons: List any non-organic or non-biodegradable components.\n   b. Recycle:\n      - Pros: List any recyclable materials or components.\n      - Cons: List any non-recyclable materials or contaminants.\n   c. Landfill:\n      - Pros: List any reasons why the item might not fit in other categories.\n      - Cons: List any reasons why the item could potentially belong in other categories.\n4. Determine if the item contains any organic matter that can decompose or spoil.\n5. Assess if the item has recyclable components or raw materials.\n6. Consider the waste categorization rules:\n   a. If there are organic materials that can decompose or spoil, classify as organic.\n   b. If the item has recyclable components, classify as recycle.\n   c. If the item doesn\x27t fit into organic or recycle categories, classify as landfill.\n7. Prioritize categorization in this order: organic > recycle > landfill.\n8. Estimate your confidence in both the category and item identification.\n\nAfter your analysis, provide your final output in the following format:\n\n<final_output>\nCategory: [waste category]\nCategory_confidence: [confidence level as a decimal]\nItem: [1-3 word item description]\nItem_confidence: [confidence level as a decimal]\n</final_output>\n\nEnsure that:\n- The category is exactly one of: organic, landfill, or recycle\n- The item label is 1-3 words\n- Confidence scores are decimal numbers between 0 and 1, with two decimal places\n\nHere\x27s a generic example of how your output should be formatted:\n\nCategory: landfill\nCategory_confidence: 0.87\nItem: a broken spoon\nItem_confidence: 0.93\n\nRemember to replace the placeholders with your actual analysis results.\n"

/-- External collaborators of the handler, passed explicitly so the theorems
can quantify over their behaviour: the storage fetch boundary, the model
inference boundary (model id, system text, image bytes, prompt text,
inference configuration), and the device-shadow publish boundary (topic,
qos, serialized payload). -/
structure Boundaries where
  s3get : String → String → Except String (List ℕ)
  converse : String → String → List ℕ → String → InferenceConfig → Except String String
  publish : String → ℕ → String → Except String Unit

/-- Model of get_claude_response: one converse call with the fixed model id,
system prompt and inference configuration; the returned text is stripped.
A ClientError from the boundary propagates. -/
def get_claude_response (B : Boundaries) (imageData : List ℕ) (promptText : String) :
    Except String String :=
  match B.converse MODEL_ID SYSTEM_PROMPT imageData promptText inference_config with
  | Except.ok t => Except.ok (pyStrip t)
  | Except.error e => Except.error e

/-- Model of invoke_claude_classifier: extract the bucket name and object key
from the nested event fields (KeyError propagates), fetch the image bytes
(ClientError propagates), call the classifier and parse its reply.  The
bucket name and key must be strings to be usable as boto3 parameters. -/
def invoke_claude_classifier (B : Boundaries) (event : JVal) :
    Except String (ClassificationResult × ClassificationResult × String) :=
  match jGet event "detail" with
  | none => Except.error "KeyError: detail"
  | some detail =>
    match jGet detail "bucket" with
    | none => Except.error "KeyError: bucket"
    | some bkt =>
      match jGet bkt "name" with
      | some (JVal.str bucketName) =>
        match jGet detail "object" with
        | none => Except.error "KeyError: object"
        | some objv =>
          match jGet objv "key" with
          | some (JVal.str key) =>
            match B.s3get bucketName key with
            | Except.error e => Except.error e
            | Except.ok imageData =>
              match get_claude_response B imageData PROMPT with
              | Except.error e => Except.error e
              | Except.ok response => Except.ok (parse_claude_response response)
          | _ => Except.error "KeyError: key"
      | _ => Except.error "KeyError: name"

/-- Model of updateShadowTopic: serialize the payload carrying the
classification, publish it once to the fixed topic with qos 0, and swallow a
publish failure (returning false instead of raising).  Besides the success
flag it returns the publish-boundary invocations made, so the theorems can
speak about them. -/
def updateShadowTopic (B : Boundaries) (result : String) : Bool × List PublishCall :=
  match B.publish shadowTopic 0 (shadowPayload result) with
  | Except.ok _ => (true, [⟨shadowTopic, 0, shadowPayload result⟩])
  | Except.error _ => (false, [⟨shadowTopic, 0, shadowPayload result⟩])

/-- Model of lambda_handler: classify, annotate the event in place with the
five output fields, publish the category name read back from the event
(best-effort: the returned flag of updateShadowTopic is ignored), and return
the annotated event.  The second component collects the publish-boundary
invocations. -/
def lambda_handler (B : Boundaries) (event : JVal) :
    Except String (JVal × List PublishCall) :=
  match invoke_claude_classifier B event with
  | Except.error e => Except.error e
  | Except.ok (classification, item_label, reason) =>
    match jSet event "classification" (JVal.str classification.Name) with
    | none => Except.error "TypeError: event is not a mapping"
    | some e1 =>
      match jSet e1 "Score" (JVal.num classification.Score) with
      | none => Except.error "TypeError: event is not a mapping"
      | some e2 =>
        match jSet e2 "Item" (JVal.str item_label.Name) with
        | none => Except.error "TypeError: event is not a mapping"
        | some e3 =>
          match jSet e3 "Item_Score" (JVal.num item_label.Score) with
          | none => Except.error "TypeError: event is not a mapping"
          | some e4 =>
            match jSet e4 "Reason" (JVal.str reason) with
            | none => Except.error "TypeError: event is not a mapping"
            | some e5 =>
              match jGet e5 "classification" with
              | some (JVal.str cls) => Except.ok (e5, (updateShadowTopic B cls).2)
              | _ => Except.error "TypeError: classification is not a string"

/-- Output fields the handler adds to the event. -/
def outputFields : List String := ["classification", "Score", "Item", "Item_Score", "Reason"]

/-- Holds when a string contains no (ASCII) uppercase letter, i.e. is fully
lowercased. -/
def noUpper (s : String) : Bool :=
  s.data.all fun c => !c.isUpper

/-- Invariant the specification claims of every ClassificationResult produced
by the parser: lowercase name, and a two-decimal-precision probability score
in the interval [0,1].  Stated from the specification's words, to be compared
with what the code produces. -/
def SpecResultInvariant (r : ClassificationResult) : Prop :=
  noUpper r.Name = true ∧
  ∃ q : ℚ, r.Score = PyFloat.finite q ∧ 0 ≤ q ∧ q ≤ 1 ∧ ∃ n : ℤ, q * 100 = (n : ℚ)

/-- Reply whose otherwise well-formed final_output block carries a confidence
outside [0,1]. -/
def c4Input : String :=
  "<final_output>\nCategory: Recycle\nCategory_confidence: 2.5\nItem: Bottle\nItem_confidence: 0.5\n</final_output>"

/-- Reply text appended after a complete final_output block, itself containing
a second final_output block. -/
def secondBlockText : String :=
  "<final_output>\nCategory: Landfill\nCategory_confidence: 0.10\nItem: Rock\nItem_confidence: 0.20\n</final_output>"

/-- Reply holding one complete, well-formed final_output block; the
counterexample inputs append a second final_output block after it. -/
def c6Base : String :=
  "<final_output>\nCategory: A\nCategory_confidence: 1\nItem: x\nItem_confidence: 1\n</final_output>"

/-- Mocked boundaries whose fetch and inference always succeed (the inference
returning the happy-path text) and whose publish always succeeds. -/
def wB : Boundaries :=
  ⟨fun _ _ => Except.ok [1, 2, 3], fun _ _ _ _ _ => Except.ok happyText,
   fun _ _ _ => Except.ok ()⟩

/-- Mocked boundaries whose fetch and inference succeed but whose publish
always raises. -/
def wBfail : Boundaries :=
  ⟨fun _ _ => Except.ok [1, 2, 3], fun _ _ _ _ _ => Except.ok happyText,
   fun _ _ _ => Except.error "publish failed"⟩

/-- Concrete inbound storage-change event with valid nested bucket/key fields
and one extra field. -/
def wEvent : JVal :=
  JVal.obj [("detail", JVal.obj [("bucket", JVal.obj [("name", JVal.str "bkt")]),
    ("object", JVal.obj [("key", JVal.str "image.jpg")])]), ("id", JVal.str "42")]

/-- Annotated event the handler produces from wEvent under the wB
boundaries: the original fields followed by the five output fields. -/
def wEventOut : JVal :=
  JVal.obj [("detail", JVal.obj [("bucket", JVal.obj [("name", JVal.str "bkt")]),
    ("object", JVal.obj [("key", JVal.str "image.jpg")])]), ("id", JVal.str "42"),
    ("classification", JVal.str "recycle"),
    ("Score", JVal.num (PyFloat.finite (mkRat 91 100))),
    ("Item", JVal.str "plastic bottle"),
    ("Item_Score", JVal.num (PyFloat.finite (mkRat 88 100))),
    ("Reason", JVal.str "abc")]

/-- Publish-boundary invocations recorded on that run. -/
def wCalls : List PublishCall := [⟨shadowTopic, 0, shadowPayload "recycle"⟩]

theorem uint32_le_iff_toNat_le (a b : UInt32) : a ≤ b ↔ a.toNat ≤ b.toNat := Iff.rfl

theorem lowerChar_isUpper (c : Char) : (lowerChar c).isUpper = false := by
  unfold lowerChar
  by_cases h : c.isUpper
  · rw [if_pos h]
    have hn : 65 ≤ c.toNat ∧ c.toNat ≤ 90 := by
      unfold Char.isUpper at h
      simp only [Bool.and_eq_true, decide_eq_true_eq, ge_iff_le] at h
      exact ⟨(uint32_le_iff_toNat_le 65 c.val).mp h.1, (uint32_le_iff_toNat_le c.val 90).mp h.2⟩
    have hv : (c.toNat + 32).isValidChar := Or.inl (by omega)
    rw [Char.ofNat, dif_pos hv]
    have hval : (Char.ofNatAux (c.toNat + 32) hv).val.toNat = c.toNat + 32 := by
      simp [Char.ofNatAux, UInt32.toNat]
    simp only [Char.isUpper, ge_iff_le, Bool.and_eq_false_iff, decide_eq_false_iff_not, not_le]
    right
    rw [uint32_le_iff_toNat_le, hval]
    have : (90 : UInt32).toNat = 90 := rfl
    omega
  · rw [if_neg h]
    exact Bool.eq_false_iff.mpr h

theorem noUpper_pyLower (s : String) : noUpper (pyLower s) = true := by
  unfold noUpper pyLower
  rw [List.all_eq_true]
  intro c hc
  rw [List.mem_map] at hc
  obtain ⟨c0, _, rfl⟩ := hc
  rw [lowerChar_isUpper]
  rfl

theorem splitFirstColon_eq_none (l : List Char) (h : ':' ∉ l) :
    splitFirstColon l = none := by
  induction l with
  | nil => rfl
  | cons c rest ih =>
    unfold splitFirstColon
    rw [if_neg (by simp at h; exact fun hc => h.1 hc.symm)]
    rw [ih (by simp at h; exact h.2)]

theorem splitFirstColon_eq_some (k v : List Char) (h : ':' ∉ k) :
    splitFirstColon (k ++ ':' :: v) = some (k, v) := by
  induction k with
  | nil => simp [splitFirstColon]
  | cons c rest ih =>
    simp only [List.cons_append]
    unfold splitFirstColon
    rw [if_neg (by simp at h; exact fun hc => h.1 hc.symm)]
    rw [ih (by simp at h; exact h.2)]

theorem buildPairs_skip (pre post : List (List Char)) (l : List Char) (h : ':' ∉ l) :
    buildPairs (pre ++ l :: post) = buildPairs (pre ++ post) := by
  induction pre with
  | nil =>
    simp only [List.nil_append]
    conv_lhs => unfold buildPairs
    rw [splitFirstColon_eq_none l h]
  | cons p rest ih =>
    simp only [List.cons_append]
    unfold buildPairs
    rw [ih]

theorem dictGet_append_last (p : List (String × String)) (k v : String) :
    dictGet (p ++ [(k, v)]) k = some v := by
  induction p with
  | nil => simp [dictGet]
  | cons q rest ih =>
    obtain ⟨k1, v1⟩ := q
    simp only [List.cons_append]
    unfold dictGet
    rw [ih]

theorem dictGet_append_ne (p : List (String × String)) (k k' v' : String) (h : k ≠ k') :
    dictGet (p ++ [(k', v')]) k = dictGet p k := by
  induction p with
  | nil =>
    simp only [List.nil_append]
    unfold dictGet
    rw [if_neg (fun hk => h hk.symm)]
    rfl
  | cons q rest ih =>
    obtain ⟨k1, v1⟩ := q
    simp only [List.cons_append]
    unfold dictGet
    rw [ih]

theorem splitAtSub_shape (pat l pre post : List Char)
    (h : splitAtSub pat l = some (pre, post)) : l = pre ++ pat ++ post := by
  induction l generalizing pre post with
  | nil =>
    unfold splitAtSub at h
    by_cases hp : pat = ([] : List Char)
    · rw [if_pos hp] at h
      obtain ⟨rfl, rfl⟩ : pre = [] ∧ post = [] := by
        constructor <;> injection h with h1 <;> injection h1 with h2 h3 <;> simp_all
      simp [hp]
    · rw [if_neg hp] at h
      exact absurd h (by simp)
  | cons c rest ih =>
    unfold splitAtSub at h
    by_cases hpre : pat.isPrefixOf (c :: rest)
    · rw [if_pos hpre] at h
      simp only [Option.some.injEq, Prod.mk.injEq] at h
      obtain ⟨h2, h3⟩ := h
      obtain ⟨u, hu⟩ := List.isPrefixOf_iff_prefix.mp hpre
      have hdrop : (c :: rest).drop pat.length = u := by
        rw [← hu, List.drop_left]
      rw [← h2, ← h3, hdrop, List.nil_append, hu]
    · rw [if_neg hpre] at h
      cases hre : splitAtSub pat rest with
      | none => rw [hre] at h; exact absurd h (by simp)
      | some pr =>
        obtain ⟨p1, q1⟩ := pr
        rw [hre] at h
        simp only [Option.some.injEq, Prod.mk.injEq] at h
        obtain ⟨h2, h3⟩ := h
        rw [← h2, ← h3, ih p1 q1 hre]
        simp

theorem splitAtSub_append (pat l t pre post : List Char) (hp : pat ≠ [])
    (h : splitAtSub pat l = some (pre, post)) :
    splitAtSub pat (l ++ t) = some (pre, post ++ t) := by
  induction l generalizing pre post with
  | nil =>
    unfold splitAtSub at h
    rw [if_neg hp] at h
    exact absurd h (by simp)
  | cons c rest ih =>
    unfold splitAtSub at h
    by_cases hpre : pat.isPrefixOf (c :: rest)
    · rw [if_pos hpre] at h
      simp only [Option.some.injEq, Prod.mk.injEq] at h
      obtain ⟨h2, h3⟩ := h
      have hlen : pat.length ≤ (c :: rest).length :=
        ( List.isPrefixOf_iff_prefix.mp hpre).length_le
      have hpre3 : pat.isPrefixOf (c :: rest ++ t) := by
        rw [ List.isPrefixOf_iff_prefix]
        exact ( List.isPrefixOf_iff_prefix.mp hpre).trans (List.prefix_append (c :: rest) t)
      show splitAtSub pat (c :: (rest ++ t)) = some (pre, post ++ t)
      unfold splitAtSub
      rw [if_pos (by simpa using hpre3)]
      rw [← h2, ← h3]
      rw [show (c :: (rest ++ t)) = (c :: rest) ++ t by simp]
      rw [List.drop_append_of_le_length hlen]
    · rw [if_neg hpre] at h
      cases hre : splitAtSub pat rest with
      | none => rw [hre] at h; exact absurd h (by simp)
      | some pr =>
        obtain ⟨p1, q1⟩ := pr
        rw [hre] at h
        simp only [Option.some.injEq, Prod.mk.injEq] at h
        obtain ⟨h2, h3⟩ := h
        have hlen : pat.length ≤ rest.length := by
          have := splitAtSub_shape pat rest p1 q1 hre
          rw [this]; simp; omega
        have hpre3 : ¬ pat.isPrefixOf (c :: rest ++ t) := by
          intro hcon
          apply hpre
          rw [ List.isPrefixOf_iff_prefix] at hcon ⊢
          have htake := List.prefix_iff_eq_take.mp hcon
          have hle : pat.length ≤ (c :: rest).length := by simp; omega
          rw [List.take_append_of_le_length hle] at htake
          exact List.prefix_iff_eq_take.mpr htake
        show splitAtSub pat (c :: (rest ++ t)) = some (pre, post ++ t)
        unfold splitAtSub
        rw [if_neg (by simpa using hpre3)]
        rw [ih p1 q1 hre]
        rw [← h2, ← h3]

theorem extractBlock_append (openTag closeTag s t inner : String)
    (hono : openTag.data ≠ []) (hcno : closeTag.data ≠ [])
    (h : extractBlock openTag closeTag s = some inner) :
    extractBlock openTag closeTag (s ++ t) = some inner := by
  unfold extractBlock at h ⊢
  cases h1 : splitAtSub openTag.data s.data with
  | none => simp only [h1] at h; exact absurd h (by simp)
  | some pr =>
    obtain ⟨pre, rest⟩ := pr
    simp only [h1] at h
    cases h2 : splitAtSub closeTag.data rest with
    | none => simp only [h2] at h; exact absurd h (by simp)
    | some pr2 =>
      obtain ⟨inn, post⟩ := pr2
      simp only [h2] at h
      rw [String.data_append]
      simp only [splitAtSub_append openTag.data s.data t.data pre rest hono h1,
        splitAtSub_append closeTag.data rest t.data inn post hcno h2]
      exact h

theorem parseAttempt_append (s t a innerF : String)
    (ha : extractBlock "<waste_analysis>" "</waste_analysis>" s = some a)
    (hf : extractBlock "<final_output>" "</final_output>" s = some innerF) :
    parseAttempt (s ++ t) = parseAttempt s := by
  have ha2 := extractBlock_append "<waste_analysis>" "</waste_analysis>" s t a
    (by decide) (by decide) ha
  have hf2 := extractBlock_append "<final_output>" "</final_output>" s t innerF
    (by decide) (by decide) hf
  unfold parseAttempt
  rw [ha, hf, ha2, hf2]

theorem lookupFirst_setKey_same (fs : List (String × JVal)) (k : String) (x : JVal) :
    lookupFirst (setKey fs k x) k = some x := by
  induction fs with
  | nil => simp [setKey, lookupFirst]
  | cons p rest ih =>
    obtain ⟨k1, v1⟩ := p
    by_cases h : k1 = k
    · simp [setKey, lookupFirst, h]
    · simp [setKey, lookupFirst, h, ih]

theorem lookupFirst_setKey_ne (fs : List (String × JVal)) (k k' : String) (x : JVal)
    (h : k' ≠ k) : lookupFirst (setKey fs k x) k' = lookupFirst fs k' := by
  induction fs with
  | nil =>
    have hkk : ¬ k = k' := fun hk => h hk.symm
    simp [setKey, lookupFirst, hkk]
  | cons p rest ih =>
    obtain ⟨k1, v1⟩ := p
    by_cases h1 : k1 = k
    · subst h1
      have hkk : ¬ k1 = k' := fun hk => h hk.symm
      simp [setKey, lookupFirst, hkk, h]
    · by_cases h2 : k1 = k'
      · simp [setKey, lookupFirst, h1, h2, h]
      · simp [setKey, lookupFirst, h1, h2, h, ih]

theorem jGet_obj (fs : List (String × JVal)) (k : String) :
    jGet (JVal.obj fs) k = lookupFirst fs k := rfl

theorem jGet_some_obj (e : JVal) (k : String) (v : JVal) (h : jGet e k = some v) :
    ∃ fs, e = JVal.obj fs := by
  cases e
  case obj fs => exact ⟨fs, rfl⟩
  all_goals simp [jGet] at h

theorem updateShadowTopic_calls (B : Boundaries) (result : String) :
    (updateShadowTopic B result).2 = [⟨shadowTopic, 0, shadowPayload result⟩] := by
  unfold updateShadowTopic
  cases h : B.publish shadowTopic 0 (shadowPayload result)
  · rfl
  · rfl

theorem lambda_handler_run (B : Boundaries) (fs : List (String × JVal))
    (detail bkt objv : JVal) (bucketName key : String) (img : List ℕ) (raw : String)
    (c i : ClassificationResult) (rs : String)
    (hd : lookupFirst fs "detail" = some detail)
    (hb : jGet detail "bucket" = some bkt)
    (hbn : jGet bkt "name" = some (JVal.str bucketName))
    (ho : jGet detail "object" = some objv)
    (hk : jGet objv "key" = some (JVal.str key))
    (hs3 : B.s3get bucketName key = Except.ok img)
    (hcv : B.converse MODEL_ID SYSTEM_PROMPT img PROMPT inference_config = Except.ok raw)
    (hparse : parse_claude_response (pyStrip raw) = (c, i, rs)) :
    lambda_handler B (JVal.obj fs) =
      Except.ok (JVal.obj (setKey (setKey (setKey (setKey (setKey fs
          "classification" (JVal.str c.Name))
          "Score" (JVal.num c.Score))
          "Item" (JVal.str i.Name))
          "Item_Score" (JVal.num i.Score))
          "Reason" (JVal.str rs)),
        [⟨shadowTopic, 0, shadowPayload c.Name⟩]) := by
  have hinv : invoke_claude_classifier B (JVal.obj fs) = Except.ok (c, i, rs) := by
    unfold invoke_claude_classifier get_claude_response
    rw [jGet_obj]
    simp only [hd, hb, hbn, ho, hk, hs3, hcv, hparse]
  unfold lambda_handler
  simp only [hinv, jSet, jGet_obj]
  rw [lookupFirst_setKey_ne _ _ _ _ (by decide),
    lookupFirst_setKey_ne _ _ _ _ (by decide),
    lookupFirst_setKey_ne _ _ _ _ (by decide),
    lookupFirst_setKey_ne _ _ _ _ (by decide),
    lookupFirst_setKey_same]
  simp only [updateShadowTopic_calls]

theorem parseAttempt_ok_shape (s : String)
    (o : ClassificationResult × ClassificationResult × String)
    (h : parseAttempt s = Except.ok o) :
    (∃ cat, o.1.Name = pyLower cat) ∧ (∃ item, o.2.1.Name = pyLower item) := by
  unfold parseAttempt at h
  cases h1 : extractBlock "<final_output>" "</final_output>" s with
  | none => simp only [h1] at h; exact Except.noConfusion h
  | some innerF =>
    simp only [h1] at h
    rcases h2 : dictGet (respDict innerF) "Category" with _ | catv
    · simp only [h2] at h; exact Except.noConfusion h
    rcases h3 : dictGet (respDict innerF) "Category_confidence" with _ | catConf
    · simp only [h2, h3] at h; exact Except.noConfusion h
    rcases h4 : dictGet (respDict innerF) "Item" with _ | itemv
    · simp only [h2, h3, h4] at h; exact Except.noConfusion h
    rcases h5 : dictGet (respDict innerF) "Item_confidence" with _ | itemConf
    · simp only [h2, h3, h4, h5] at h; exact Except.noConfusion h
    simp only [h2, h3, h4, h5] at h
    rcases h6 : pyFloat catConf with _ | catScore
    · simp only [h6] at h; exact Except.noConfusion h
    rcases h7 : pyFloat itemConf with _ | itemScore
    · simp only [h6, h7] at h; exact Except.noConfusion h
    simp only [h6, h7, Except.ok.injEq] at h
    rw [← h]
    exact ⟨⟨catv, rfl⟩, ⟨itemv, rfl⟩⟩

theorem rat_091 : (0.91 : ℚ) = mkRat 91 100 := by
  rw [show (0.91 : ℚ) = Rat.ofScientific 91 true 2 from rfl, Rat.ofScientific_def]
  norm_num

theorem rat_088 : (0.88 : ℚ) = mkRat 88 100 := by
  rw [show (0.88 : ℚ) = Rat.ofScientific 88 true 2 from rfl, Rat.ofScientific_def]
  norm_num

/-- C1: the response parser is total.  For every input string, the try-block
body either succeeds — and its value is what parse_claude_response returns —
or fails with a ValueError, and parse_claude_response returns the default
outcome instead of propagating the error.  In both cases a full
ParsedOutcome (category result, item result, rationale) is produced. -/
theorem C1_parse_total (s : String) :
    (∃ o, parseAttempt s = Except.ok o ∧ parse_claude_response s = o) ∨
    (∃ e, parseAttempt s = Except.error e ∧
      parse_claude_response s = (default_dict, default_dict, "")) := by
  unfold parse_claude_response
  cases h : parseAttempt s with
  | ok o => exact Or.inl ⟨o, rfl, rfl⟩
  | error e => exact Or.inr ⟨e, rfl, rfl⟩

/-- C3: happy path.  The waste_analysis block followed by a well-formed
final_output block parses to the lowercased category recycle with score 0.91,
the lowercased item plastic bottle with score 0.88, and rationale abc. -/
theorem C3_happy_path :
    parse_claude_response happyText =
      (⟨"recycle", PyFloat.finite 0.91⟩,
       ⟨"plastic bottle", PyFloat.finite 0.88⟩, "abc") := by
  rw [rat_091, rat_088]
  rfl

/-- C10: the parser is deterministic — its result depends on nothing but the
input string, so equal inputs give equal ParsedOutcomes.  (The embedded
parser is a pure function, which is exactly this hyperproperty.) -/
theorem C10_deterministic (s1 s2 : String) (h : s1 = s2) :
    parse_claude_response s1 = parse_claude_response s2 :=
  congrArg parse_claude_response h

/-- Witness for C10 at a concrete input. -/
theorem C10_witness :
    parse_claude_response "garbage" = parse_claude_response "garbage" :=
  C10_deterministic "garbage" "garbage" rfl

/-- Counterexample to C4 as stated: on an otherwise well-formed reply whose
Category_confidence is 2.5, the parser returns a category result whose score
is 2.5 — not a two-decimal probability in [0,1] — so the claimed invariant
fails on a result the parser actually produces. -/
theorem C4_counterexample :
    (parse_claude_response c4Input).1.Score = PyFloat.finite (mkRat 5 2) ∧
    ¬ SpecResultInvariant (parse_claude_response c4Input).1 := by
  refine ⟨rfl, ?_⟩
  intro hinv
  obtain ⟨_, q, hq, h0, h1, _⟩ := hinv
  rw [show (parse_claude_response c4Input).1.Score = PyFloat.finite (mkRat 5 2) from rfl]
    at hq
  have hq2 : mkRat 5 2 = q := by injection hq
  rw [← hq2, Rat.mkRat_eq_div] at h1
  norm_num at h1

/-- C4 amended: both names produced by the parser are always lowercase (they
are either a lowercased field value or the default unknown), and whenever
parsing fails the parser returns the default pairing — name unknown with
score 0.0 for both results and an empty rationale.  The score itself is
whatever decimal the confidence field parsed to: the code does not constrain
it to [0,1] or to two decimals. -/
theorem C4_names_lowercase_default_on_failure (s : String) :
    noUpper (parse_claude_response s).1.Name = true ∧
    noUpper (parse_claude_response s).2.1.Name = true ∧
    (∀ e, parseAttempt s = Except.error e →
      parse_claude_response s = (default_dict, default_dict, "")) := by
  refine ⟨?_, ?_, ?_⟩
  · unfold parse_claude_response
    cases h : parseAttempt s with
    | error e => rfl
    | ok o =>
      obtain ⟨⟨cat, hcat⟩, _⟩ := parseAttempt_ok_shape s o h
      show noUpper o.1.Name = true
      rw [hcat]
      exact noUpper_pyLower cat
  · unfold parse_claude_response
    cases h : parseAttempt s with
    | error e => rfl
    | ok o =>
      obtain ⟨_, ⟨item, hitem⟩⟩ := parseAttempt_ok_shape s o h
      show noUpper o.2.1.Name = true
      rw [hitem]
      exact noUpper_pyLower item
  · intro e he
    unfold parse_claude_response
    simp only [he]

/-- Witness for the amended C4 at a concrete input on which parsing fails. -/
theorem C4_witness :
    noUpper (parse_claude_response "junk").1.Name = true ∧
    noUpper (parse_claude_response "junk").2.1.Name = true ∧
    (∀ e, parseAttempt "junk" = Except.error e →
      parse_claude_response "junk" = (default_dict, default_dict, "")) :=
  C4_names_lowercase_default_on_failure "junk"

/-- C5: within the results block the parser splits into lines, splits each
line at its FIRST colon into a stripped key and a stripped value, ignores
lines without a colon, lets the last binding of a duplicated key win, and an
extra unrecognized key does not disturb the lookup of any other key. -/
theorem C5_line_splitting :
    (∀ (pre post : List (List Char)) (l : List Char), ':' ∉ l →
        buildPairs (pre ++ l :: post) = buildPairs (pre ++ post)) ∧
    (∀ (k v : List Char) (rest : List (List Char)), ':' ∉ k →
        buildPairs ((k ++ ':' :: v) :: rest) =
          (⟨stripL k⟩, ⟨stripL v⟩) :: buildPairs rest) ∧
    (∀ (p : List (String × String)) (k v : String),
        dictGet (p ++ [(k, v)]) k = some v) ∧
    (∀ (p : List (String × String)) (k k' v' : String), k ≠ k' →
        dictGet (p ++ [(k', v')]) k = dictGet p k) := by
  refine ⟨buildPairs_skip, ?_, dictGet_append_last, dictGet_append_ne⟩
  intro k v rest h
  conv_lhs => unfold buildPairs
  simp only [splitFirstColon_eq_some k v h]

/-- Witness for C5: concrete instances of the four conjuncts — a colon-free
line is skipped, a line is split at its first colon with both sides stripped,
the later of two bindings of Category wins, and an extra key leaves another
lookup unchanged. -/
theorem C5_witness :
    buildPairs ([['a', 'b']] ++ [' ', 'K', ':', ' ', 'v', ':', 'w'] :: []) =
      buildPairs [[' ', 'K', ':', ' ', 'v', ':', 'w']] ∧
    buildPairs (([' ', 'K'] ++ ':' :: [' ', 'v', ':', 'w']) :: []) =
      (⟨stripL [' ', 'K']⟩, ⟨stripL [' ', 'v', ':', 'w']⟩) :: buildPairs [] ∧
    dictGet ([("Category", "Recycle")] ++ [("Category", "Landfill")]) "Category" =
      some "Landfill" ∧
    dictGet ([("Item", "cup")] ++ [("Extra", "zz")]) "Item" = dictGet [("Item", "cup")] "Item" :=
  ⟨C5_line_splitting.1 [] [[' ', 'K', ':', ' ', 'v', ':', 'w']] ['a', 'b'] (by decide),
   C5_line_splitting.2.1 [' ', 'K'] [' ', 'v', ':', 'w'] [] (by decide),
   C5_line_splitting.2.2.1 [("Category", "Recycle")] "Category" "Landfill",
   C5_line_splitting.2.2.2 [("Item", "cup")] "Item" "Extra" "zz" (by decide)⟩

theorem parseAttempt_eval (s innerF catv catConf itemv itemConf : String)
    (hf : extractBlock "<final_output>" "</final_output>" s = some innerF)
    (h2 : dictGet (respDict innerF) "Category" = some catv)
    (h3 : dictGet (respDict innerF) "Category_confidence" = some catConf)
    (h4 : dictGet (respDict innerF) "Item" = some itemv)
    (h5 : dictGet (respDict innerF) "Item_confidence" = some itemConf) :
    parseAttempt s =
      match pyFloat catConf with
      | none => Except.error "could not convert string to float"
      | some catScore =>
        match pyFloat itemConf with
        | none => Except.error "could not convert string to float"
        | some itemScore =>
          Except.ok (⟨pyLower catv, catScore⟩, ⟨pyLower itemv, itemScore⟩,
            match extractBlock "<waste_analysis>" "</waste_analysis>" s with
            | some a => pyStrip a
            | none => "") := by
  unfold parseAttempt
  simp only [hf, h2, h3, h4, h5]

/-- C2: every failure of the final_output pipeline yields the full default
sentinel.  If the final_output block is absent, or any of the four required
keys is missing from the parsed mapping, or either confidence value does not
parse as a float, then parse_claude_response returns the default pairing for
both results and an EMPTY rationale — even when a waste_analysis block was
extracted earlier (the extracted rationale is discarded). -/
theorem C2_failure_defaults (s : String)
    (h : extractBlock "<final_output>" "</final_output>" s = none ∨
         ∃ innerF, extractBlock "<final_output>" "</final_output>" s = some innerF ∧
           ((∃ k, k ∈ requiredKeys ∧ dictGet (respDict innerF) k = none) ∨
            (∃ cv, dictGet (respDict innerF) "Category_confidence" = some cv ∧
              pyFloat cv = none) ∨
            (∃ iv, dictGet (respDict innerF) "Item_confidence" = some iv ∧
              pyFloat iv = none))) :
    parse_claude_response s = (default_dict, default_dict, "") := by
  suffices hs : ∃ e, parseAttempt s = Except.error e by
    obtain ⟨e, he⟩ := hs
    unfold parse_claude_response
    simp only [he]
  rcases h with hnone | ⟨innerF, hf, hbad⟩
  · refine ⟨"Missing final_output section", ?_⟩
    unfold parseAttempt
    simp only [hnone]
  · rcases h2 : dictGet (respDict innerF) "Category" with _ | catv
    · exact ⟨"Missing required fields in output", by unfold parseAttempt; simp only [hf, h2]⟩
    rcases h3 : dictGet (respDict innerF) "Category_confidence" with _ | catConf
    · exact ⟨"Missing required fields in output",
        by unfold parseAttempt; simp only [hf, h2, h3]⟩
    rcases h4 : dictGet (respDict innerF) "Item" with _ | itemv
    · exact ⟨"Missing required fields in output",
        by unfold parseAttempt; simp only [hf, h2, h3, h4]⟩
    rcases h5 : dictGet (respDict innerF) "Item_confidence" with _ | itemConf
    · exact ⟨"Missing required fields in output",
        by unfold parseAttempt; simp only [hf, h2, h3, h4, h5]⟩
    have heval := parseAttempt_eval s innerF catv catConf itemv itemConf hf h2 h3 h4 h5
    rcases hbad with ⟨k, hk, hkn⟩ | ⟨cv, hcv, hcvn⟩ | ⟨iv, hiv, hivn⟩
    · simp only [requiredKeys, List.mem_cons, List.not_mem_nil, or_false] at hk
      rcases hk with rfl | rfl | rfl | rfl
      · rw [h2] at hkn; exact absurd hkn (by simp)
      · rw [h3] at hkn; exact absurd hkn (by simp)
      · rw [h4] at hkn; exact absurd hkn (by simp)
      · rw [h5] at hkn; exact absurd hkn (by simp)
    · have hceq : catConf = cv := by
        rw [h3] at hcv
        exact Option.some.inj hcv
      refine ⟨"could not convert string to float", ?_⟩
      rw [heval, hceq, hcvn]
    · have hieq : itemConf = iv := by
        rw [h5] at hiv
        exact Option.some.inj hiv
      rcases h6 : pyFloat catConf with _ | catScore
      · exact ⟨"could not convert string to float", by rw [heval, h6]⟩
      refine ⟨"could not convert string to float", ?_⟩
      rw [heval, h6, hieq, hivn]

/-- Witness for C2 at a concrete input: the final_output block is present but
its Category_confidence is not numeric, so the parser returns the default
sentinel and discards the extracted rationale. -/
theorem C2_witness :
    (∃ cv, dictGet (respDict "\nCategory: Recycle\nCategory_confidence: high\nItem: Plastic Bottle\nItem_confidence: 0.88\n")
        "Category_confidence" = some cv ∧ pyFloat cv = none) ∧
    parse_claude_response "<waste_analysis>abc</waste_analysis><final_output>\nCategory: Recycle\nCategory_confidence: high\nItem: Plastic Bottle\nItem_confidence: 0.88\n</final_output>" =
      (default_dict, default_dict, "") :=
  ⟨⟨"high", rfl, rfl⟩,
   C2_failure_defaults _ (Or.inr ⟨_, rfl, Or.inr (Or.inl ⟨"high", rfl, rfl⟩)⟩)⟩

/-- C7: end-to-end orchestration.  For every event with valid nested
bucket/key fields, when the storage boundary returns fixed bytes, the
inference boundary returns the happy-path text and the publish boundary
succeeds, the handler returns the event annotated with classification
recycle, Score 0.91, Item plastic bottle and Item_Score 0.88, and the
publish boundary is invoked exactly once, on the shadow topic, with the
state.desired.classification payload containing recycle. -/
theorem C7_end_to_end (B : Boundaries) (event detail bkt objv : JVal)
    (bucket key : String) (img : List ℕ)
    (hd : jGet event "detail" = some detail)
    (hb : jGet detail "bucket" = some bkt)
    (hbn : jGet bkt "name" = some (JVal.str bucket))
    (ho : jGet detail "object" = some objv)
    (hk : jGet objv "key" = some (JVal.str key))
    (hs3 : B.s3get bucket key = Except.ok img)
    (hcv : B.converse MODEL_ID SYSTEM_PROMPT img PROMPT inference_config =
      Except.ok happyText)
    (hpb : ∀ t q p, B.publish t q p = Except.ok ()) :
    ∃ ev', lambda_handler B event =
        Except.ok (ev', [⟨shadowTopic, 0, shadowPayload "recycle"⟩]) ∧
      jGet ev' "classification" = some (JVal.str "recycle") ∧
      jGet ev' "Score" = some (JVal.num (PyFloat.finite 0.91)) ∧
      jGet ev' "Item" = some (JVal.str "plastic bottle") ∧
      jGet ev' "Item_Score" = some (JVal.num (PyFloat.finite 0.88)) ∧
      shadowPayload "recycle" =
        "\x7b\"state\": \x7b\"desired\": \x7b\"classification\": \"recycle\"\x7d\x7d\x7d" := by
  obtain ⟨fs, rfl⟩ := jGet_some_obj event "detail" detail hd
  have hd2 : lookupFirst fs "detail" = some detail := hd
  have hr := lambda_handler_run B fs detail bkt objv bucket key img happyText
    ⟨"recycle", PyFloat.finite (mkRat 91 100)⟩
    ⟨"plastic bottle", PyFloat.finite (mkRat 88 100)⟩ "abc"
    hd2 hb hbn ho hk hs3 hcv rfl
  refine ⟨_, hr, ?_, ?_, ?_, ?_, rfl⟩
  · rw [jGet_obj, lookupFirst_setKey_ne _ _ _ _ (by decide),
      lookupFirst_setKey_ne _ _ _ _ (by decide), lookupFirst_setKey_ne _ _ _ _ (by decide),
      lookupFirst_setKey_ne _ _ _ _ (by decide), lookupFirst_setKey_same]
  · rw [rat_091, jGet_obj, lookupFirst_setKey_ne _ _ _ _ (by decide),
      lookupFirst_setKey_ne _ _ _ _ (by decide), lookupFirst_setKey_ne _ _ _ _ (by decide),
      lookupFirst_setKey_same]
  · rw [jGet_obj, lookupFirst_setKey_ne _ _ _ _ (by decide),
      lookupFirst_setKey_ne _ _ _ _ (by decide), lookupFirst_setKey_same]
  · rw [rat_088, jGet_obj, lookupFirst_setKey_ne _ _ _ _ (by decide),
      lookupFirst_setKey_same]

/-- Witness for C7: concrete mocked boundaries and a concrete event. -/
theorem C7_witness :
    ∃ ev', lambda_handler wB wEvent =
        Except.ok (ev', [⟨shadowTopic, 0, shadowPayload "recycle"⟩]) ∧
      jGet ev' "classification" = some (JVal.str "recycle") ∧
      jGet ev' "Score" = some (JVal.num (PyFloat.finite 0.91)) ∧
      jGet ev' "Item" = some (JVal.str "plastic bottle") ∧
      jGet ev' "Item_Score" = some (JVal.num (PyFloat.finite 0.88)) ∧
      shadowPayload "recycle" =
        "\x7b\"state\": \x7b\"desired\": \x7b\"classification\": \"recycle\"\x7d\x7d\x7d" :=
  C7_end_to_end wB wEvent
    (JVal.obj [("bucket", JVal.obj [("name", JVal.str "bkt")]),
      ("object", JVal.obj [("key", JVal.str "image.jpg")])])
    (JVal.obj [("name", JVal.str "bkt")]) (JVal.obj [("key", JVal.str "image.jpg")])
    "bkt" "image.jpg" [1, 2, 3] rfl rfl rfl rfl rfl rfl rfl (fun _ _ _ => rfl)

/-- C8: publish-failure isolation.  When fetch and inference succeed (with an
arbitrary reply) but every publish raises, the handler still returns the
fully annotated event without raising; the failure is swallowed inside
updateShadowTopic and leaves the returned result unchanged. -/
theorem C8_publish_failure_isolated (B : Boundaries) (event detail bkt objv : JVal)
    (bucket key : String) (img : List ℕ) (raw emsg : String)
    (hd : jGet event "detail" = some detail)
    (hb : jGet detail "bucket" = some bkt)
    (hbn : jGet bkt "name" = some (JVal.str bucket))
    (ho : jGet detail "object" = some objv)
    (hk : jGet objv "key" = some (JVal.str key))
    (hs3 : B.s3get bucket key = Except.ok img)
    (hcv : B.converse MODEL_ID SYSTEM_PROMPT img PROMPT inference_config = Except.ok raw)
    (hpb : ∀ t q p, B.publish t q p = Except.error emsg) :
    ∃ ev', lambda_handler B event =
        Except.ok (ev', [⟨shadowTopic, 0,
          shadowPayload (parse_claude_response (pyStrip raw)).1.Name⟩]) ∧
      jGet ev' "classification" =
        some (JVal.str (parse_claude_response (pyStrip raw)).1.Name) ∧
      jGet ev' "Score" = some (JVal.num (parse_claude_response (pyStrip raw)).1.Score) ∧
      jGet ev' "Item" = some (JVal.str (parse_claude_response (pyStrip raw)).2.1.Name) ∧
      jGet ev' "Item_Score" =
        some (JVal.num (parse_claude_response (pyStrip raw)).2.1.Score) ∧
      jGet ev' "Reason" = some (JVal.str (parse_claude_response (pyStrip raw)).2.2) := by
  obtain ⟨fs, rfl⟩ := jGet_some_obj event "detail" detail hd
  have hd2 : lookupFirst fs "detail" = some detail := hd
  have hr := lambda_handler_run B fs detail bkt objv bucket key img raw
    (parse_claude_response (pyStrip raw)).1 (parse_claude_response (pyStrip raw)).2.1
    (parse_claude_response (pyStrip raw)).2.2 hd2 hb hbn ho hk hs3 hcv rfl
  refine ⟨_, hr, ?_, ?_, ?_, ?_, ?_⟩
  · rw [jGet_obj, lookupFirst_setKey_ne _ _ _ _ (by decide),
      lookupFirst_setKey_ne _ _ _ _ (by decide), lookupFirst_setKey_ne _ _ _ _ (by decide),
      lookupFirst_setKey_ne _ _ _ _ (by decide), lookupFirst_setKey_same]
  · rw [jGet_obj, lookupFirst_setKey_ne _ _ _ _ (by decide),
      lookupFirst_setKey_ne _ _ _ _ (by decide), lookupFirst_setKey_ne _ _ _ _ (by decide),
      lookupFirst_setKey_same]
  · rw [jGet_obj, lookupFirst_setKey_ne _ _ _ _ (by decide),
      lookupFirst_setKey_ne _ _ _ _ (by decide), lookupFirst_setKey_same]
  · rw [jGet_obj, lookupFirst_setKey_ne _ _ _ _ (by decide), lookupFirst_setKey_same]
  · rw [jGet_obj, lookupFirst_setKey_same]

/-- Witness for C8: the same concrete run with a publish boundary that always
raises. -/
theorem C8_witness :
    ∃ ev', lambda_handler wBfail wEvent =
        Except.ok (ev', [⟨shadowTopic, 0,
          shadowPayload (parse_claude_response (pyStrip happyText)).1.Name⟩]) ∧
      jGet ev' "classification" =
        some (JVal.str (parse_claude_response (pyStrip happyText)).1.Name) ∧
      jGet ev' "Score" =
        some (JVal.num (parse_claude_response (pyStrip happyText)).1.Score) ∧
      jGet ev' "Item" =
        some (JVal.str (parse_claude_response (pyStrip happyText)).2.1.Name) ∧
      jGet ev' "Item_Score" =
        some (JVal.num (parse_claude_response (pyStrip happyText)).2.1.Score) ∧
      jGet ev' "Reason" =
        some (JVal.str (parse_claude_response (pyStrip happyText)).2.2) :=
  C8_publish_failure_isolated wBfail wEvent
    (JVal.obj [("bucket", JVal.obj [("name", JVal.str "bkt")]),
      ("object", JVal.obj [("key", JVal.str "image.jpg")])])
    (JVal.obj [("name", JVal.str "bkt")]) (JVal.obj [("key", JVal.str "image.jpg")])
    "bkt" "image.jpg" [1, 2, 3] happyText "publish failed"
    rfl rfl rfl rfl rfl rfl rfl (fun _ _ _ => rfl)

/-- C9: frame property of the handler.  Whenever the handler succeeds, the
returned value is the inbound event mapping with exactly the five output
fields (classification, Score, Item, Item_Score, Reason) added or
overwritten, and the lookup of every other field is unchanged. -/
theorem C9_frame (B : Boundaries) (event ev' : JVal) (calls : List PublishCall)
    (h : lambda_handler B event = Except.ok (ev', calls)) :
    (∀ k, k ∉ outputFields → jGet ev' k = jGet event k) ∧
    (∃ fs cn cs inm isc rs, event = JVal.obj fs ∧
      ev' = JVal.obj (setKey (setKey (setKey (setKey (setKey fs
        "classification" (JVal.str cn)) "Score" (JVal.num cs))
        "Item" (JVal.str inm)) "Item_Score" (JVal.num isc)) "Reason" (JVal.str rs))) := by
  unfold lambda_handler at h
  cases hi : invoke_claude_classifier B event with
  | error e => simp only [hi] at h; exact Except.noConfusion h
  | ok tri =>
    obtain ⟨c, i, rs⟩ := tri
    simp only [hi] at h
    cases event
    case obj fs =>
      simp only [jSet] at h
      have e1 : lookupFirst (setKey (setKey (setKey (setKey (setKey fs
          "classification" (JVal.str c.Name)) "Score" (JVal.num c.Score))
          "Item" (JVal.str i.Name)) "Item_Score" (JVal.num i.Score))
          "Reason" (JVal.str rs)) "classification" = some (JVal.str c.Name) := by
        rw [lookupFirst_setKey_ne _ _ _ _ (by decide),
          lookupFirst_setKey_ne _ _ _ _ (by decide),
          lookupFirst_setKey_ne _ _ _ _ (by decide),
          lookupFirst_setKey_ne _ _ _ _ (by decide), lookupFirst_setKey_same]
      simp only [jGet_obj, e1, updateShadowTopic_calls, Except.ok.injEq,
        Prod.mk.injEq] at h
      obtain ⟨hev, hcalls⟩ := h
      constructor
      · intro k hk
        simp only [outputFields, List.mem_cons, List.not_mem_nil, or_false, not_or] at hk
        obtain ⟨hk1, hk2, hk3, hk4, hk5⟩ := hk
        rw [← hev, jGet_obj, jGet_obj,
          lookupFirst_setKey_ne _ _ _ _ hk5, lookupFirst_setKey_ne _ _ _ _ hk4,
          lookupFirst_setKey_ne _ _ _ _ hk3, lookupFirst_setKey_ne _ _ _ _ hk2,
          lookupFirst_setKey_ne _ _ _ _ hk1]
      · exact ⟨fs, c.Name, c.Score, i.Name, i.Score, rs, rfl, hev.symm⟩
    all_goals simp [jSet] at h

/-- Witness for C9 at the concrete run of the witness boundaries. -/
theorem C9_witness :
    (∀ k, k ∉ outputFields → jGet wEventOut k = jGet wEvent k) ∧
    (∃ fs cn cs inm isc rs, wEvent = JVal.obj fs ∧
      wEventOut = JVal.obj (setKey (setKey (setKey (setKey (setKey fs
        "classification" (JVal.str cn)) "Score" (JVal.num cs))
        "Item" (JVal.str inm)) "Item_Score" (JVal.num isc)) "Reason" (JVal.str rs))) :=
  C9_frame wB wEvent wEventOut wCalls rfl

theorem parse_components_eq (s1 s2 innerF : String)
    (hf1 : extractBlock "<final_output>" "</final_output>" s1 = some innerF)
    (hf2 : extractBlock "<final_output>" "</final_output>" s2 = some innerF) :
    (parse_claude_response s1).1 = (parse_claude_response s2).1 ∧
    (parse_claude_response s1).2.1 = (parse_claude_response s2).2.1 := by
  rcases h2 : dictGet (respDict innerF) "Category" with _ | catv
  · have e1 : parseAttempt s1 = Except.error "Missing required fields in output" := by
      unfold parseAttempt; simp only [hf1, h2]
    have e2 : parseAttempt s2 = Except.error "Missing required fields in output" := by
      unfold parseAttempt; simp only [hf2, h2]
    have p1 : parse_claude_response s1 = (default_dict, default_dict, "") := by
      unfold parse_claude_response; simp only [e1]
    have p2 : parse_claude_response s2 = (default_dict, default_dict, "") := by
      unfold parse_claude_response; simp only [e2]
    rw [p1, p2]; exact ⟨rfl, rfl⟩
  rcases h3 : dictGet (respDict innerF) "Category_confidence" with _ | catConf
  · have e1 : parseAttempt s1 = Except.error "Missing required fields in output" := by
      unfold parseAttempt; simp only [hf1, h2, h3]
    have e2 : parseAttempt s2 = Except.error "Missing required fields in output" := by
      unfold parseAttempt; simp only [hf2, h2, h3]
    have p1 : parse_claude_response s1 = (default_dict, default_dict, "") := by
      unfold parse_claude_response; simp only [e1]
    have p2 : parse_claude_response s2 = (default_dict, default_dict, "") := by
      unfold parse_claude_response; simp only [e2]
    rw [p1, p2]; exact ⟨rfl, rfl⟩
  rcases h4 : dictGet (respDict innerF) "Item" with _ | itemv
  · have e1 : parseAttempt s1 = Except.error "Missing required fields in output" := by
      unfold parseAttempt; simp only [hf1, h2, h3, h4]
    have e2 : parseAttempt s2 = Except.error "Missing required fields in output" := by
      unfold parseAttempt; simp only [hf2, h2, h3, h4]
    have p1 : parse_claude_response s1 = (default_dict, default_dict, "") := by
      unfold parse_claude_response; simp only [e1]
    have p2 : parse_claude_response s2 = (default_dict, default_dict, "") := by
      unfold parse_claude_response; simp only [e2]
    rw [p1, p2]; exact ⟨rfl, rfl⟩
  rcases h5 : dictGet (respDict innerF) "Item_confidence" with _ | itemConf
  · have e1 : parseAttempt s1 = Except.error "Missing required fields in output" := by
      unfold parseAttempt; simp only [hf1, h2, h3, h4, h5]
    have e2 : parseAttempt s2 = Except.error "Missing required fields in output" := by
      unfold parseAttempt; simp only [hf2, h2, h3, h4, h5]
    have p1 : parse_claude_response s1 = (default_dict, default_dict, "") := by
      unfold parse_claude_response; simp only [e1]
    have p2 : parse_claude_response s2 = (default_dict, default_dict, "") := by
      unfold parse_claude_response; simp only [e2]
    rw [p1, p2]; exact ⟨rfl, rfl⟩
  have heval1 := parseAttempt_eval s1 innerF catv catConf itemv itemConf hf1 h2 h3 h4 h5
  have heval2 := parseAttempt_eval s2 innerF catv catConf itemv itemConf hf2 h2 h3 h4 h5
  rcases h6 : pyFloat catConf with _ | catScore
  · have e1 : parseAttempt s1 = Except.error "could not convert string to float" := by
      rw [heval1, h6]
    have e2 : parseAttempt s2 = Except.error "could not convert string to float" := by
      rw [heval2, h6]
    have p1 : parse_claude_response s1 = (default_dict, default_dict, "") := by
      unfold parse_claude_response; simp only [e1]
    have p2 : parse_claude_response s2 = (default_dict, default_dict, "") := by
      unfold parse_claude_response; simp only [e2]
    rw [p1, p2]; exact ⟨rfl, rfl⟩
  rcases h7 : pyFloat itemConf with _ | itemScore
  · have e1 : parseAttempt s1 = Except.error "could not convert string to float" := by
      rw [heval1, h6, h7]
    have e2 : parseAttempt s2 = Except.error "could not convert string to float" := by
      rw [heval2, h6, h7]
    have p1 : parse_claude_response s1 = (default_dict, default_dict, "") := by
      unfold parse_claude_response; simp only [e1]
    have p2 : parse_claude_response s2 = (default_dict, default_dict, "") := by
      unfold parse_claude_response; simp only [e2]
    rw [p1, p2]; exact ⟨rfl, rfl⟩
  have o1 : parseAttempt s1 = Except.ok (⟨pyLower catv, catScore⟩,
      ⟨pyLower itemv, itemScore⟩,
      match extractBlock "<waste_analysis>" "</waste_analysis>" s1 with
      | some a => pyStrip a
      | none => "") := by
    rw [heval1, h6, h7]
  have o2 : parseAttempt s2 = Except.ok (⟨pyLower catv, catScore⟩,
      ⟨pyLower itemv, itemScore⟩,
      match extractBlock "<waste_analysis>" "</waste_analysis>" s2 with
      | some a => pyStrip a
      | none => "") := by
    rw [heval2, h6, h7]
  have p11 : (parse_claude_response s1).1 = ⟨pyLower catv, catScore⟩ := by
    unfold parse_claude_response; rw [o1]
  have p12 : (parse_claude_response s1).2.1 = ⟨pyLower itemv, itemScore⟩ := by
    unfold parse_claude_response; rw [o1]
  have p21 : (parse_claude_response s2).1 = ⟨pyLower catv, catScore⟩ := by
    unfold parse_claude_response; rw [o2]
  have p22 : (parse_claude_response s2).2.1 = ⟨pyLower itemv, itemScore⟩ := by
    unfold parse_claude_response; rw [o2]
  exact ⟨p11.trans p21.symm, p12.trans p22.symm⟩

/-- Counterexample to C6 as stated: two inputs, each containing two
final_output-delimited blocks, identical except for the CONTENTS of the
second block — in the first input that second block carries the reply's only
waste_analysis markers.  The rationale search scans the whole reply, so the
two returned ParsedOutcomes differ in their rationale: the contents of a
later final_output block CAN affect the returned ParsedOutcome. -/
theorem C6_counterexample :
    (parse_claude_response
      (c6Base ++ "<final_output><waste_analysis>X</waste_analysis></final_output>")).2.2
        = "X" ∧
    (parse_claude_response (c6Base ++ "<final_output></final_output>")).2.2 = "" ∧
    parse_claude_response
        (c6Base ++ "<final_output><waste_analysis>X</waste_analysis></final_output>") ≠
      parse_claude_response (c6Base ++ "<final_output></final_output>") :=
  ⟨rfl, rfl, by decide⟩

/-- C6 (amended): first-match semantics of the results-block extraction.
Whenever the first final_output block is complete within a prefix of the
input, appending ANY further text — in particular one or more additional
final_output blocks — changes neither which block is extracted nor the
category and item results; and when a complete waste_analysis block also
lies in that prefix, the entire ParsedOutcome is unchanged.  (Only the
rationale can still be affected by later text, when the sole waste_analysis
markers lie there — see the counterexample.) -/
theorem C6_first_block_determines_results (s t innerF : String)
    (hf : extractBlock "<final_output>" "</final_output>" s = some innerF) :
    extractBlock "<final_output>" "</final_output>" (s ++ t) = some innerF ∧
    (parse_claude_response (s ++ t)).1 = (parse_claude_response s).1 ∧
    (parse_claude_response (s ++ t)).2.1 = (parse_claude_response s).2.1 ∧
    (∀ a, extractBlock "<waste_analysis>" "</waste_analysis>" s = some a →
      parse_claude_response (s ++ t) = parse_claude_response s) := by
  have hf2 : extractBlock "<final_output>" "</final_output>" (s ++ t) = some innerF :=
    extractBlock_append _ _ s t innerF (by decide) (by decide) hf
  have hcomp := parse_components_eq (s ++ t) s innerF hf2 hf
  refine ⟨hf2, hcomp.1, hcomp.2, ?_⟩
  intro a ha
  unfold parse_claude_response
  rw [parseAttempt_append s t a innerF ha hf]

/-- Witness for the amended C6: appending a second final_output block to the
happy-path text leaves the extracted block, both results, and (since the
happy-path text has a complete waste_analysis block) the whole outcome
unchanged. -/
theorem C6_witness :
    extractBlock "<final_output>" "</final_output>" (happyText ++ secondBlockText) =
      some "\nCategory: Recycle\nCategory_confidence: 0.91\nItem: Plastic Bottle\nItem_confidence: 0.88\n" ∧
    (parse_claude_response (happyText ++ secondBlockText)).1 =
      (parse_claude_response happyText).1 ∧
    (parse_claude_response (happyText ++ secondBlockText)).2.1 =
      (parse_claude_response happyText).2.1 ∧
    (∀ a, extractBlock "<waste_analysis>" "</waste_analysis>" happyText = some a →
      parse_claude_response (happyText ++ secondBlockText) =
        parse_claude_response happyText) :=
  C6_first_block_determines_results happyText secondBlockText
    "\nCategory: Recycle\nCategory_confidence: 0.91\nItem: Plastic Bottle\nItem_confidence: 0.88\n"
    (by rfl)
